import Mathlib

/-!
Shallow embedding of `examples/ray-trace/main.rs` (blade ray-trace example).

The example's GPU-facing behaviour is modelled as traces of recorded calls
(`Event`): `newTrace` embeds the setup sequence in `Example::new`
(lines 109-225), `renderTrace` the per-frame recording in `Example::render`
(lines 254-314), and `deleteTrace` the teardown in `Example::delete`
(lines 243-252).  Pure computations (the TLAS scratch offset, the compute
group counts, the per-frame `Parameters` record) are embedded as Lean
functions; `f32` arithmetic is embedded as exact rational arithmetic.
-/

namespace RayTrace

/-- The buffers created by the example (named after the Rust locals). -/
inductive Buf where
  | vertexBuf
  | indexBuf
  | blasBuf
  | tlasBuf
  | instBuf
  | scratchBuf
deriving DecidableEq, Repr

/-- The two acceleration structures. -/
inductive Accel where
  | blas
  | tlas
deriving DecidableEq, Repr

/-- The textures touched by the recording: the offscreen render target and
the acquired swapchain frame texture. -/
inductive Tex where
  | target
  | frame
deriving DecidableEq, Repr

/-- The `Parameters` uniform record (`main.rs` lines 5-13), with `f32`
fields embedded as exact rationals. -/
structure Parameters where
  camPosition : ℚ × ℚ × ℚ
  depth : ℚ
  camOrientation : ℚ × ℚ × ℚ × ℚ
  fov : ℚ × ℚ
  pad : ℚ × ℚ
deriving DecidableEq, Repr

/-- One recorded device-context call.  Arguments record the data the Rust
call passes (buffer sizes in bytes, scratch offsets, dispatch group counts,
draw arguments, sync-point identifiers). -/
inductive Event where
  | startEncoding
  | initTexture (t : Tex)
  | createBuffer (b : Buf) (size : Nat)
  | createAccelStruct (a : Accel) (size : Nat)
  | createInstanceBuffer (count : Nat)
  | beginComputePass
  | endComputePass
  | buildBlas (scratchOffset : Nat)
  | buildTlas (count scratchOffset : Nat)
  | bindCompute (p : Parameters)
  | dispatch (gx gy gz : Nat)
  | acquireFrame
  | beginRenderPass
  | bindDraw
  | bindVertexBuffer (b : Buf)
  | bindIndexBuffer (b : Buf)
  | draw (firstVertex vertexCount firstInstance instanceCount : Nat)
  | endRenderPass
  | present
  | submit (sp : Nat)
  | waitFor (sp : Nat)
  | destroyBuffer (b : Buf)
  | destroyTextureView
  | destroyTexture
  | destroyAccelStruct (a : Accel)
deriving DecidableEq, Repr

/-- Predicate: the event is a BLAS build. -/
def Event.isBuildBlas : Event → Bool
  | .buildBlas _ => true
  | _ => false

/-- Predicate: the event is a TLAS build. -/
def Event.isBuildTlas : Event → Bool
  | .buildTlas _ _ => true
  | _ => false

/-- Predicate: the event is a compute dispatch. -/
def Event.isDispatch : Event → Bool
  | .dispatch _ _ _ => true
  | _ => false

/-- Predicate: the event is a draw call. -/
def Event.isDraw : Event → Bool
  | .draw _ _ _ _ => true
  | _ => false

/-- Predicate: the event is a submission. -/
def Event.isSubmit : Event → Bool
  | .submit _ => true
  | _ => false

/-- Predicate: the event is a blocking wait on a sync point. -/
def Event.isWaitFor : Event → Bool
  | .waitFor _ => true
  | _ => false

/-- Predicate: the event destroys a buffer. -/
def Event.isDestroyBuffer : Event → Bool
  | .destroyBuffer _ => true
  | _ => false

/-- Predicate: the event is any destruction call (buffer, view, texture or
acceleration structure). -/
def Event.isDestroy : Event → Bool
  | .destroyBuffer _ => true
  | .destroyTextureView => true
  | .destroyTexture => true
  | .destroyAccelStruct _ => true
  | _ => false

/-- Predicate: the event binds a vertex buffer (never recorded by this
example). -/
def Event.isBindVertexBuffer : Event → Bool
  | .bindVertexBuffer _ => true
  | _ => false

/-- Predicate: the event binds an index buffer (never recorded by this
example). -/
def Event.isBindIndexBuffer : Event → Bool
  | .bindIndexBuffer _ => true
  | _ => false

/-- The TLAS scratch offset computed in `Example::new` (lines 192-194):
`(blas_sizes.scratch | (ACCELERATION_STRUCTURE_SCRATCH_ALIGNMENT - 1)) + 1`.
The alignment is a parameter here because `blade::limits` is outside this
source slice; the spec fixes it to 256, a power of two. -/
def tlasScratchOffset (blasScratch align : Nat) : Nat :=
  (blasScratch ||| (align - 1)) + 1

/-- Modelled from the spec: `align_up(s, A)`, the least multiple of `A`
that is `≥ s`, written with the usual formula.  This is the spec's stated
value for the TLAS scratch offset, to be compared against
`tlasScratchOffset`, which is what the code computes. -/
def alignUpSpec (s a : Nat) : Nat :=
  ((s + a - 1) / a) * a

/-- Modelled from the spec: `ceil(a / b)` on naturals, the spec's stated
value for the dispatch group counts, to be compared against `groupCount`. -/
def ceilDivSpec (a b : Nat) : Nat :=
  a / b + if b ∣ a then 0 else 1

/-- The compute group counts computed in `Example::render` (lines 260-264):
`[(w + wx - 1) / wx, (h + wy - 1) / wy, 1]` in `u32` arithmetic; the
intermediate sum is reduced mod `2^32` to reflect the 32-bit width. -/
def groupCount (w h wx wy : Nat) : Nat × Nat × Nat :=
  (((w + wx - 1) % 2 ^ 32) / wx, ((h + wy - 1) % 2 ^ 32) / wy, 1)

/-- The `fov_y` constant of `Example::render` (line 265). -/
def fovY : ℚ := 0.2

/-- `fov_x = fov_y * width as f32 / height as f32` (line 266), embedded
over exact rationals. -/
def fovX (w h : Nat) : ℚ :=
  fovY * (w : ℚ) / (h : ℚ)

/-- The `Parameters` value bound by `Example::render` (lines 271-277). -/
def parameters (w h : Nat) : Parameters :=
  { camPosition := (0, 0, -5)
    depth := 100
    camOrientation := (0, 0, 0, 1)
    fov := (fovX w h, fovY)
    pad := (0, 0) }

/-- The setup trace of `Example::new` (lines 109-225), from the first
buffer creation to the post-wait destruction of the build inputs.
Parameters: `bd`/`td` the BLAS/TLAS data sizes, `bs`/`ts` the BLAS/TLAS
scratch sizes, `al` the scratch alignment.  The vertex buffer holds three
`[f32; 3]` records (36 bytes), the index buffer three `u16` (6 bytes);
the single submission's sync point is numbered 0. -/
def newTrace (bd bs td ts al : Nat) : List Event :=
  [ .createBuffer .vertexBuf 36,
    .createBuffer .indexBuf 6,
    .createBuffer .blasBuf bd,
    .createAccelStruct .blas bd,
    .createInstanceBuffer 1,
    .createBuffer .tlasBuf td,
    .createAccelStruct .tlas td,
    .createBuffer .scratchBuf (tlasScratchOffset bs al + ts),
    .startEncoding,
    .initTexture .target,
    .beginComputePass,
    .buildBlas 0,
    .endComputePass,
    .beginComputePass,
    .buildTlas 1 (tlasScratchOffset bs al),
    .endComputePass,
    .submit 0,
    .waitFor 0,
    .destroyBuffer .vertexBuf,
    .destroyBuffer .indexBuf,
    .destroyBuffer .scratchBuf,
    .destroyBuffer .instBuf ]

/-- The per-frame trace of `Example::render` (lines 254-314): compute pass
(bind + dispatch), frame acquisition, render pass (bind + draw), present,
submit (sync point `n`), then the wait on the previous frame's sync point
when one is pending. -/
def renderTrace (w h wx wy : Nat) (prev : Option Nat) (n : Nat) : List Event :=
  [ .startEncoding,
    .beginComputePass,
    .bindCompute (parameters w h),
    .dispatch (groupCount w h wx wy).1 (groupCount w h wx wy).2.1 1,
    .endComputePass,
    .acquireFrame,
    .initTexture .frame,
    .beginRenderPass,
    .bindDraw,
    .draw 0 3 0 1,
    .endRenderPass,
    .present,
    .submit n ] ++
  (match prev with
   | some sp => [Event.waitFor sp]
   | none => [])

/-- The teardown trace of `Example::delete` (lines 243-252): wait on the
pending sync point when there is one, then destroy the texture view, the
render-target texture, the BLAS handle, the BLAS buffer and the TLAS
buffer, in that order. -/
def deleteTrace (prev : Option Nat) : List Event :=
  (match prev with
   | some sp => [Event.waitFor sp]
   | none => []) ++
  [ .destroyTextureView,
    .destroyTexture,
    .destroyAccelStruct .blas,
    .destroyBuffer .blasBuf,
    .destroyBuffer .tlasBuf ]

/-- The renderer state carried across frames: the screen extent, the
compute pipeline's workgroup size, and the single pending-sync-point slot
(`prev_sync_point` in the Rust struct). -/
structure ExState where
  width : Nat
  height : Nat
  wgx : Nat
  wgy : Nat
  prevSyncPoint : Option Nat
deriving DecidableEq, Repr

/-- The state `Example::new` returns: `prev_sync_point` is `None`
(line 237). -/
def newExample (w h wx wy : Nat) : ExState :=
  { width := w, height := h, wgx := wx, wgy := wy, prevSyncPoint := none }

/-- One `render()` call on state `st`, whose submission returns sync point
`n`: it records `renderTrace`, and the state keeps `some n` as the pending
sync point (lines 309-314). -/
def renderStep (st : ExState) (n : Nat) : List Event × ExState :=
  (renderTrace st.width st.height st.wgx st.wgy st.prevSyncPoint n,
   { st with prevSyncPoint := some n })

/-- `k` successive `render()` calls starting from `st`, the `i`-th
submission returning sync point `i`; yields the final state and the list
of per-call traces. -/
def renderRun (st : ExState) : Nat → ExState × List (List Event)
  | 0 => (st, [])
  | k + 1 =>
    let p := renderRun st k
    let q := renderStep p.1 k
    (q.2, p.2 ++ [q.1])

/-- The sync points a trace waits on, in order. -/
def waits (t : List Event) : List Nat :=
  t.filterMap fun e =>
    match e with
    | .waitFor sp => some sp
    | _ => none

/-- Helper for `computePasses`: scan the trace, accumulating the body of
the currently open compute pass (if any). -/
def computePassesAux : List Event → Option (List Event) → List (List Event)
  | [], _ => []
  | e :: rest, none =>
    if e = Event.beginComputePass then computePassesAux rest (some [])
    else computePassesAux rest none
  | e :: rest, some acc =>
    if e = Event.endComputePass then acc.reverse :: computePassesAux rest none
    else computePassesAux rest (some (e :: acc))

/-- The bodies of the compute passes of a trace, in recording order. -/
def computePasses (t : List Event) : List (List Event) :=
  computePassesAux t none

/-- Bitwise helper: OR-ing with the low mask `2^k - 1` sets the `k` low
bits of `s` while leaving the high part `s / 2^k` untouched. -/
theorem lor_low_mask (s k : Nat) :
    s ||| (2 ^ k - 1) = 2 ^ k * (s / 2 ^ k) + (2 ^ k - 1) := by
  have hpos := Nat.two_pow_pos k
  have hr : s % 2 ^ k < 2 ^ k := Nat.mod_lt _ hpos
  have hmask : 2 ^ k - 1 < 2 ^ k := by omega
  have habsorb : s % 2 ^ k ||| (2 ^ k - 1) = 2 ^ k - 1 := by
    apply Nat.eq_of_testBit_eq
    intro i
    rw [Nat.testBit_or, Nat.testBit_two_pow_sub_one]
    by_cases hik : i < k
    · simp [hik]
    · have hle : 2 ^ k ≤ 2 ^ i :=
        Nat.pow_le_pow_right (by norm_num) (Nat.le_of_not_lt hik)
      have : s % 2 ^ k < 2 ^ i := lt_of_lt_of_le hr hle
      simp [hik, Nat.testBit_lt_two_pow this]
  conv_lhs => rw [← Nat.div_add_mod s (2 ^ k)]
  rw [Nat.mul_add_lt_is_or hr, Nat.lor_assoc, habsorb,
    ← Nat.mul_add_lt_is_or hmask]

/-- What the code's `(s | (A - 1)) + 1` computes at a power-of-two
alignment: the next multiple of `2^k` strictly greater than `s`. -/
theorem tlasScratchOffset_pow2 (s k : Nat) :
    tlasScratchOffset s (2 ^ k) = (s / 2 ^ k + 1) * 2 ^ k := by
  have hpos := Nat.two_pow_pos k
  unfold tlasScratchOffset
  rw [lor_low_mask]
  have h1 : 2 ^ k * (s / 2 ^ k) + (2 ^ k - 1) + 1
      = 2 ^ k * (s / 2 ^ k) + 2 ^ k := by omega
  rw [h1]; ring

/-- Ceiling division: `(a + b - 1) / b` splits as `(a - 1) / b + 1` when
`a ≥ 1`, `b ≥ 1`. -/
theorem add_sub_one_div_of_pos (a b : Nat) (ha : 1 ≤ a) (hb : 0 < b) :
    (a + b - 1) / b = (a - 1) / b + 1 := by
  have e1 : a + b - 1 = (a - 1) + b := by omega
  rw [e1, Nat.add_div_right _ hb]

/-- The add-and-divide formula computes the ceiling of `a / b`. -/
theorem ceilDivSpec_eq (a b : Nat) (ha : 1 ≤ a) (hb : 0 < b) :
    (a + b - 1) / b = ceilDivSpec a b := by
  unfold ceilDivSpec
  by_cases hd : b ∣ a
  · obtain ⟨m, rfl⟩ := hd
    have hm : 1 ≤ m := by
      rcases Nat.eq_zero_or_pos m with h0 | h1
      · subst h0; omega
      · exact h1
    have e : b * m + b - 1 = b * m + (b - 1) := by omega
    rw [e, Nat.mul_add_div hb, Nat.div_eq_of_lt (by omega),
      Nat.mul_div_cancel_left m hb, if_pos ⟨m, rfl⟩]
  · have hr : a % b < b := Nat.mod_lt _ hb
    have hr1 : 1 ≤ a % b := by
      rcases Nat.eq_zero_or_pos (a % b) with h0 | h1
      · exact absurd (Nat.dvd_of_mod_eq_zero h0) hd
      · exact h1
    have hdm := Nat.div_add_mod a b
    have hexp : b * (a / b + 1) = b * (a / b) + b := by ring
    have e : a + b - 1 = b * (a / b + 1) + (a % b - 1) := by omega
    rw [e, Nat.mul_add_div hb, if_neg hd,
      Nat.div_eq_of_lt (show a % b - 1 < b by omega)]

/-- When the alignment does not divide `s`, `align_up` agrees with the
next strictly greater multiple. -/
theorem alignUpSpec_of_not_dvd (s a : Nat) (hb : 0 < a) (hd : ¬ a ∣ s) :
    alignUpSpec s a = (s / a + 1) * a := by
  have hs : 1 ≤ s := by
    rcases Nat.eq_zero_or_pos s with h0 | h1
    · subst h0; exact absurd (dvd_zero a) hd
    · exact h1
  unfold alignUpSpec
  rw [ceilDivSpec_eq s a hs hb]
  unfold ceilDivSpec
  rw [if_neg hd]

/-- One-dimensional group-count facts: the `u32` expression
`(a + b - 1) / b` equals `ceil(a / b)`, covers all `a` items, is the least
group count that does, and the group of any index below `a` is dispatched. -/
theorem group_1d (a b : Nat) (ha : 1 ≤ a) (hb : 1 ≤ b)
    (hov : a + b - 1 ≤ 2 ^ 32 - 1) :
    ((a + b - 1) % 2 ^ 32) / b = ceilDivSpec a b ∧
    a ≤ ((a + b - 1) % 2 ^ 32) / b * b ∧
    (∀ g, a ≤ g * b → ((a + b - 1) % 2 ^ 32) / b ≤ g) ∧
    ∀ p, p < a → p / b < ((a + b - 1) % 2 ^ 32) / b := by
  have hmod : (a + b - 1) % 2 ^ 32 = a + b - 1 :=
    Nat.mod_eq_of_lt (by omega)
  rw [hmod]
  have gq : (a + b - 1) / b = (a - 1) / b + 1 := add_sub_one_div_of_pos a b ha hb
  refine ⟨ceilDivSpec_eq a b ha hb, ?_, ?_, ?_⟩
  · rw [gq]
    have hlt : a - 1 < ((a - 1) / b + 1) * b :=
      (Nat.div_lt_iff_lt_mul hb).mp (Nat.lt_succ_self _)
    exact le_trans (by omega) (Nat.succ_le_of_lt hlt)
  · intro g hg
    rw [gq]
    have : a - 1 < g * b := lt_of_lt_of_le (by omega) hg
    exact Nat.succ_le_of_lt ((Nat.div_lt_iff_lt_mul hb).mpr this)
  · intro p hp
    rw [gq]
    have h1 : p / b ≤ (a - 1) / b := Nat.div_le_div_right (by omega)
    omega

/-- The sync points a render trace waits on are exactly the pending sync
point carried into the call. -/
theorem waits_renderTrace (w h wx wy n : Nat) (p : Option Nat) :
    waits (renderTrace w h wx wy p n) = p.toList := by
  cases p <;> rfl

/-- A run of `k` render calls records `k` traces. -/
theorem renderRun_length (st : ExState) (k : Nat) :
    (renderRun st k).2.length = k := by
  induction k with
  | zero => rfl
  | succ k ih => simp [renderRun, ih]

/-- Rendering never changes the screen extent or workgroup sizes. -/
theorem renderRun_fields (st : ExState) (k : Nat) :
    (renderRun st k).1.width = st.width ∧
    (renderRun st k).1.height = st.height ∧
    (renderRun st k).1.wgx = st.wgx ∧
    (renderRun st k).1.wgy = st.wgy := by
  induction k with
  | zero => exact ⟨rfl, rfl, rfl, rfl⟩
  | succ k ih => simpa [renderRun, renderStep] using ih

/-- After `k + 1` render calls, the pending slot holds exactly the last
submission's sync point. -/
theorem renderRun_prev (st : ExState) (k : Nat) :
    (renderRun st (k + 1)).1.prevSyncPoint = some k := rfl

/-- The `i`-th recorded trace of a run is the render trace issued from the
state reached after `i` calls. -/
theorem renderRun_trace (st : ExState) (k i : Nat) (h : i < k) :
    (renderRun st k).2[i]? =
      some (renderTrace st.width st.height st.wgx st.wgy
        ((renderRun st i).1.prevSyncPoint) i) := by
  induction k with
  | zero => omega
  | succ k ih =>
    have hsplit : (renderRun st (k + 1)).2
        = (renderRun st k).2 ++ [(renderStep (renderRun st k).1 k).1] := rfl
    rcases Nat.lt_or_ge i k with hik | hik
    · rw [hsplit, List.getElem?_append_left (by rw [renderRun_length]; omega)]
      exact ih hik
    · have hi : i = k := by omega
      subst hi
      rw [hsplit]
      have hlen : (renderRun st i).2.length = i := renderRun_length st i
      rw [List.getElem?_append_right (by omega), hlen, Nat.sub_self]
      obtain ⟨hw, hh, hx, hy⟩ := renderRun_fields st i
      simp [renderStep, hw, hh, hx, hy]

/-- Claim C1 (amended): for every BLAS scratch size `s` and power-of-two
alignment `2^k`, the TLAS scratch offset computed during setup equals
`(s / 2^k + 1) * 2^k`, the next multiple of the alignment strictly greater
than `s`; this agrees with `align_up(s, 2^k)` whenever the alignment does
not divide `s` (in particular it is 512 for alignment 256 and size 300),
and the allocated scratch buffer's total size equals that offset plus the
TLAS scratch size. -/
theorem scratch_layout (bd td s ts k : Nat) :
    tlasScratchOffset s (2 ^ k) = (s / 2 ^ k + 1) * 2 ^ k ∧
    (¬ 2 ^ k ∣ s → tlasScratchOffset s (2 ^ k) = alignUpSpec s (2 ^ k)) ∧
    Event.createBuffer .scratchBuf (tlasScratchOffset s (2 ^ k) + ts) ∈
      newTrace bd s td ts (2 ^ k) ∧
    Event.buildTlas 1 (tlasScratchOffset s (2 ^ k)) ∈ newTrace bd s td ts (2 ^ k) := by
  refine ⟨tlasScratchOffset_pow2 s k, ?_, ?_, ?_⟩
  · intro hd
    rw [tlasScratchOffset_pow2 s k,
      alignUpSpec_of_not_dvd s (2 ^ k) (Nat.two_pow_pos k) hd]
  · simp [newTrace]
  · simp [newTrace]

/-- Claim C1, counterexample to the claim as stated: at BLAS scratch size
256 and alignment 256 the code's offset is 512, while
`align_up(256, 256) = 256`, so the offset is not `align_up` of the scratch
size for every size. -/
theorem scratch_offset_not_alignUp :
    tlasScratchOffset 256 256 = 512 ∧ alignUpSpec 256 256 = 256 ∧
    ¬ tlasScratchOffset 256 256 = alignUpSpec 256 256 := by decide

/-- Claim C1, witness: at the spec's own instance (size 300, alignment
`2^8 = 256`, which does not divide 300) the amended theorem yields the
claimed agreement with `align_up`, and the offset is 512. -/
theorem scratch_layout_witness :
    ¬ (2 : Nat) ^ 8 ∣ 300 ∧
    tlasScratchOffset 300 (2 ^ 8) = alignUpSpec 300 (2 ^ 8) ∧
    tlasScratchOffset 300 (2 ^ 8) = 512 :=
  ⟨by decide, (scratch_layout 10 20 300 40 8).2.1 (by decide), by decide⟩

/-- Claim C2: for every screen extent `w × h` (both at least 1) and
workgroup size `(wx, wy)` (both at least 1) whose ceiling sums do not
overflow `u32`, the dispatched group counts are `ceil(w / wx)`,
`ceil(h / wy)` and 1; they cover the screen (`groups * wg ≥ extent`), are
the least counts that do, and every pixel's workgroup is dispatched. -/
theorem dispatch_covers_screen (w h wx wy : Nat) (hw : 1 ≤ w) (hh : 1 ≤ h)
    (hwx : 1 ≤ wx) (hwy : 1 ≤ wy)
    (hxo : w + wx - 1 ≤ 2 ^ 32 - 1) (hyo : h + wy - 1 ≤ 2 ^ 32 - 1) :
    groupCount w h wx wy = (ceilDivSpec w wx, ceilDivSpec h wy, 1) ∧
    w ≤ (groupCount w h wx wy).1 * wx ∧
    h ≤ (groupCount w h wx wy).2.1 * wy ∧
    (∀ g, w ≤ g * wx → (groupCount w h wx wy).1 ≤ g) ∧
    (∀ g, h ≤ g * wy → (groupCount w h wx wy).2.1 ≤ g) ∧
    ∀ px py, px < w → py < h →
      px / wx < (groupCount w h wx wy).1 ∧
      py / wy < (groupCount w h wx wy).2.1 := by
  obtain ⟨hx1, hx2, hx3, hx4⟩ := group_1d w wx hw hwx hxo
  obtain ⟨hy1, hy2, hy3, hy4⟩ := group_1d h wy hh hwy hyo
  refine ⟨?_, hx2, hy2, hx3, hy3, fun px py hpx hpy => ⟨hx4 px hpx, hy4 py hpy⟩⟩
  unfold groupCount
  rw [hx1, hy1]

/-- Claim C2, witness: a 5×3 screen with 2×2 workgroups dispatches
`(3, 2, 1)` groups, which cover all pixels. -/
theorem dispatch_covers_screen_witness :
    groupCount 5 3 2 2 = (ceilDivSpec 5 2, ceilDivSpec 3 2, 1) ∧
    5 ≤ (groupCount 5 3 2 2).1 * 2 ∧ 3 ≤ (groupCount 5 3 2 2).2.1 * 2 :=
  ⟨(dispatch_covers_screen 5 3 2 2 (by decide) (by decide) (by decide) (by decide)
      (by decide) (by decide)).1,
   (dispatch_covers_screen 5 3 2 2 (by decide) (by decide) (by decide) (by decide)
      (by decide) (by decide)).2.1,
   (dispatch_covers_screen 5 3 2 2 (by decide) (by decide) (by decide) (by decide)
      (by decide) (by decide)).2.2.1⟩

/-- Claim C3: in the setup trace the BLAS build and the TLAS build are
recorded as exactly two separate compute passes in that order: the pass
containing only the BLAS build ends (index 12) before the pass containing
only the TLAS build begins (index 13), the builds sit at indices 11 and 14,
and each build is recorded exactly once. -/
theorem blas_before_tlas (bd bs td ts al : Nat) :
    computePasses (newTrace bd bs td ts al) =
      [[Event.buildBlas 0], [Event.buildTlas 1 (tlasScratchOffset bs al)]] ∧
    (newTrace bd bs td ts al).findIdx? Event.isBuildBlas = some 11 ∧
    (newTrace bd bs td ts al)[12]? = some Event.endComputePass ∧
    (newTrace bd bs td ts al)[13]? = some Event.beginComputePass ∧
    (newTrace bd bs td ts al).findIdx? Event.isBuildTlas = some 14 ∧
    (newTrace bd bs td ts al).countP Event.isBuildBlas = 1 ∧
    (newTrace bd bs td ts al).countP Event.isBuildTlas = 1 :=
  ⟨rfl, rfl, rfl, rfl, rfl, rfl, rfl⟩

/-- Claim C4: in the setup trace the wait on the build submission's sync
point sits at index 17, no destruction call occurs at or before that index,
each of the four build-input buffers (vertex, index, scratch, instance) is
destroyed exactly once, no other buffer is destroyed, and there is exactly
one wait. -/
theorem inputs_destroyed_after_wait (bd bs td ts al : Nat) :
    (newTrace bd bs td ts al)[17]? = some (Event.waitFor 0) ∧
    ((newTrace bd bs td ts al).take 18).countP Event.isDestroy = 0 ∧
    (newTrace bd bs td ts al).count (Event.destroyBuffer .vertexBuf) = 1 ∧
    (newTrace bd bs td ts al).count (Event.destroyBuffer .indexBuf) = 1 ∧
    (newTrace bd bs td ts al).count (Event.destroyBuffer .scratchBuf) = 1 ∧
    (newTrace bd bs td ts al).count (Event.destroyBuffer .instBuf) = 1 ∧
    (newTrace bd bs td ts al).countP Event.isDestroyBuffer = 4 ∧
    (newTrace bd bs td ts al).countP Event.isWaitFor = 1 :=
  ⟨rfl, rfl, rfl, rfl, rfl, rfl, rfl, rfl⟩

/-- Claim C5: over any sequence of `k + 1` render calls starting from the
state `new()` returns, the pending slot afterwards holds exactly the last
submission's sync point; each call's trace waits on nothing for the first
call and on exactly the immediately prior frame's sync point for every
later call (never an older one); and within a call the submission (index
12) precedes the wait (index 13). -/
theorem sync_point_discipline (w h wx wy k : Nat) :
    (renderRun (newExample w h wx wy) (k + 1)).1.prevSyncPoint = some k ∧
    (renderRun (newExample w h wx wy) (k + 1)).2.length = k + 1 ∧
    (∀ i, i < k + 1 →
      ((renderRun (newExample w h wx wy) (k + 1)).2[i]?).map waits =
        some (if i = 0 then [] else [i - 1])) ∧
    ∀ sp n : Nat,
      (renderTrace w h wx wy (some sp) n).findIdx? Event.isSubmit = some 12 ∧
      (renderTrace w h wx wy (some sp) n).findIdx? Event.isWaitFor = some 13 := by
  refine ⟨renderRun_prev _ k, renderRun_length _ (k + 1), ?_, fun sp n => ⟨rfl, rfl⟩⟩
  intro i hi
  rw [renderRun_trace _ (k + 1) i hi]
  cases i with
  | zero => simp [Option.map, waits_renderTrace, newExample, renderRun]
  | succ j =>
    rw [renderRun_prev]
    simp [Option.map, waits_renderTrace]

/-- Claim C5, witness: after two renders on a 4×4 screen the second call
waited exactly on sync point 0 and the pending slot holds sync point 1. -/
theorem sync_point_discipline_witness :
    ((renderRun (newExample 4 4 2 2) 2).2[1]?).map waits = some [0] ∧
    (renderRun (newExample 4 4 2 2) 2).1.prevSyncPoint = some 1 :=
  ⟨(sync_point_discipline 4 4 2 2 1).2.2.1 1 (by decide),
   (sync_point_discipline 4 4 2 2 1).1⟩

/-- Claim C6: every render trace records exactly one compute dispatch
(index 3) and exactly one draw (index 9), the draw is of 3 vertices and 1
instance with no vertex or index buffer ever bound, and the dispatch
precedes the draw, which precedes the single submission (index 12). -/
theorem one_dispatch_one_draw (w h wx wy n : Nat) (prev : Option Nat) :
    (renderTrace w h wx wy prev n).countP Event.isDispatch = 1 ∧
    (renderTrace w h wx wy prev n).countP Event.isDraw = 1 ∧
    (renderTrace w h wx wy prev n).findIdx? Event.isDispatch = some 3 ∧
    (renderTrace w h wx wy prev n).findIdx? Event.isDraw = some 9 ∧
    (renderTrace w h wx wy prev n)[9]? = some (Event.draw 0 3 0 1) ∧
    (renderTrace w h wx wy prev n).findIdx? Event.isSubmit = some 12 ∧
    (renderTrace w h wx wy prev n).countP Event.isSubmit = 1 ∧
    (renderTrace w h wx wy prev n).countP Event.isBindVertexBuffer = 0 ∧
    (renderTrace w h wx wy prev n).countP Event.isBindIndexBuffer = 0 := by
  cases prev <;> exact ⟨rfl, rfl, rfl, rfl, rfl, rfl, rfl, rfl, rfl⟩

/-- Claim C7: the `Parameters` record bound by every render call's compute
pass has camera position `(0, 0, -5)`, `fov_y = 0.2`, and
`fov_x = 0.2 * (w / h)` (embedding `f32` arithmetic as exact rationals),
and the bind is recorded in every frame's trace. -/
theorem camera_parameters (w h wx wy n : Nat) (prev : Option Nat) :
    (parameters w h).camPosition = (0, 0, -5) ∧
    (parameters w h).fov.2 = 0.2 ∧
    (parameters w h).fov.1 = 0.2 * ((w : ℚ) / (h : ℚ)) ∧
    Event.bindCompute (parameters w h) ∈ renderTrace w h wx wy prev n := by
  refine ⟨rfl, rfl, ?_, ?_⟩
  · show fovY * (w : ℚ) / (h : ℚ) = 0.2 * ((w : ℚ) / (h : ℚ))
    rw [mul_div_assoc]
    rfl
  · cases prev <;> simp [renderTrace]

/-- Claim C8: with a pending sync point, teardown is exactly the wait
followed by the destruction calls in dependency order (texture view,
texture, BLAS handle, BLAS buffer, TLAS buffer): the wait is the first
event and no destruction precedes it. -/
theorem shutdown_wait_then_destroy (sp : Nat) :
    deleteTrace (some sp) =
      [Event.waitFor sp, Event.destroyTextureView, Event.destroyTexture,
       Event.destroyAccelStruct .blas, Event.destroyBuffer .blasBuf,
       Event.destroyBuffer .tlasBuf] ∧
    (deleteTrace (some sp)).findIdx? Event.isWaitFor = some 0 ∧
    ((deleteTrace (some sp)).take 1).countP Event.isDestroy = 0 :=
  ⟨rfl, rfl, rfl⟩

/-- Claim C9: teardown destroys the BLAS handle, the BLAS buffer and the
TLAS buffer exactly once each, destroys the texture view and texture
exactly once each, never destroys the TLAS acceleration-structure handle,
and issues exactly five destruction calls in total. -/
theorem tlas_handle_not_destroyed (prev : Option Nat) :
    (deleteTrace prev).count (Event.destroyAccelStruct .blas) = 1 ∧
    (deleteTrace prev).count (Event.destroyAccelStruct .tlas) = 0 ∧
    (deleteTrace prev).count (Event.destroyBuffer .blasBuf) = 1 ∧
    (deleteTrace prev).count (Event.destroyBuffer .tlasBuf) = 1 ∧
    (deleteTrace prev).count Event.destroyTextureView = 1 ∧
    (deleteTrace prev).count Event.destroyTexture = 1 ∧
    (deleteTrace prev).countP Event.isDestroy = 5 := by
  cases prev <;> exact ⟨rfl, rfl, rfl, rfl, rfl, rfl, rfl⟩

/-- Claim C10: `new()` returns with an empty pending-sync slot, after fully
waiting (index 17, right after the submit at index 16, the only wait) on
the startup build's sync point; consequently the first render call performs
no wait, and a teardown before any render waits on nothing while still
issuing all five destruction calls. -/
theorem startup_leaves_no_pending_sync (w h wx wy bd bs td ts al n : Nat) :
    (newExample w h wx wy).prevSyncPoint = none ∧
    (newTrace bd bs td ts al)[16]? = some (Event.submit 0) ∧
    (newTrace bd bs td ts al)[17]? = some (Event.waitFor 0) ∧
    (newTrace bd bs td ts al).countP Event.isWaitFor = 1 ∧
    waits (renderStep (newExample w h wx wy) n).1 = [] ∧
    (deleteTrace (newExample w h wx wy).prevSyncPoint).countP Event.isWaitFor = 0 ∧
    (deleteTrace (newExample w h wx wy).prevSyncPoint).countP Event.isDestroy = 5 :=
  ⟨rfl, rfl, rfl, rfl, rfl, rfl, rfl⟩

end RayTrace
